import Mathlib

/-!
Verification of the niri-screen-recorder daemon: a shallow embedding of the
recording session state machine (`src/dbus.rs`), the process-supervising
helpers (`src/recorder.rs`) and the notification action listener
(`src/notifications.rs`), together with theorems about the properties the
design documentation states.

External effects (subprocess spawns, OS signal delivery, DBus traffic,
filesystem creation, wall-clock timestamps) are modelled by explicit oracle
parameters describing the outcome of each external interaction, and by an
effect trace listing the observable outbound actions each operation performs.
-/

deriving instance DecidableEq for Except

namespace NiriRec

/-- The session record of `src/dbus.rs` (`RecorderState`): `recording` flag,
current output file, and the capture subprocess handle (modelled opaquely as
a numeric id). -/
structure RecorderState where
  recording : Bool
  current_file : Option String
  child : Option Nat
deriving DecidableEq, Repr

/-- `RecorderState::default()`: the idle record. -/
def RecorderState.default : RecorderState :=
  { recording := false, current_file := none, child := none }

/-- Environment-sourced configuration read by `src/recorder.rs`, plus the
platform directories probed by the `dirs` crate. A `none` means the
environment variable is unset (or the platform directory is unavailable). -/
structure Env where
  outputDir : Option String
  container : Option String
  fps : Option String
  codec : Option String
  videoDir : Option String
  homeDir : Option String
deriving DecidableEq, Repr

/-- Rust `str::trim`: strip whitespace from both ends (computed on the
character list so every concrete instance evaluates). -/
def strTrim (s : String) : String :=
  ⟨((s.data.dropWhile Char.isWhitespace).reverse.dropWhile Char.isWhitespace).reverse⟩

/-- Rust `str::ends_with` (computed on the character list so every concrete
instance evaluates). -/
def strEndsWith (s suffix : String) : Bool :=
  suffix.data.isSuffixOf s.data

/-- Rust `PathBuf::join` (via `push`) restricted to a relative, non-empty
second component: appends a `/` separator unless the base is empty or
already ends with one. -/
def pathJoin (dir file : String) : String :=
  if dir = "" then file
  else if strEndsWith dir "/" then dir ++ file
  else dir ++ "/" ++ file

namespace Recorder

/-- `recorder::ensure_screencasts_dir`: the output directory is the
`NIRI_SCREEN_RECORDER_OUTPUT_DIR` override verbatim when set, otherwise
`<video dir or home dir>/Screencasts`; directory creation is modelled by the
`mkdirOk` oracle. -/
def ensure_screencasts_dir (env : Env) (mkdirOk : Bool) : Except String String := do
  let dir ← match env.outputDir with
    | some custom => pure custom
    | none =>
        match env.videoDir.orElse (fun _ => env.homeDir) with
        | none => Except.error "Cannot find home directory"
        | some home => pure (pathJoin home "Screencasts")
  if mkdirOk then
    pure dir
  else
    Except.error "Failed to create output directory"

/-- `recorder::generate_filename`: `<dir>/screen-record-<timestamp>.<container>`
with the container defaulting to `mp4`; the timestamp string is an oracle for
`Local::now().format(..)`. -/
def generate_filename (env : Env) (mkdirOk : Bool) (timestamp : String) :
    Except String String := do
  let dir ← ensure_screencasts_dir env mkdirOk
  let container := env.container.getD "mp4"
  let filename := "screen-record-" ++ timestamp ++ "." ++ container
  pure (pathJoin dir filename)

/-- Outcome of attempting to run the `slurp` region selector: either the
spawn itself failed, or it ran to completion with an exit status and the
captured stdout/stderr text. -/
inductive SlurpRun where
  | spawnErr (msg : String)
  | ran (success : Bool) (stdout stderr : String)
deriving DecidableEq, Repr

/-- `recorder::select_region`: error on spawn failure, non-zero exit, or
empty (trimmed) stdout; otherwise the trimmed stdout is the geometry
string. -/
def select_region : SlurpRun → Except String String
  | .spawnErr msg => .error ("Failed to run slurp: " ++ msg)
  | .ran success stdout stderr =>
      if !success then
        .error ("Region selection cancelled: " ++ strTrim stderr)
      else
        let region := strTrim stdout
        if region = "" then .error "No region selected"
        else .ok region

/-- `recorder::start_recording`: generate the output filename, then spawn
`gpu-screen-recorder` (spawn outcome given by the oracle); on success return
the child handle and the output file path. The region string only feeds the
subprocess arguments. -/
def start_recording (env : Env) (mkdirOk : Bool) (timestamp : String)
    (spawnResult : Except String Nat) (_region : String) :
    Except String (Nat × String) := do
  let output_file ← generate_filename env mkdirOk timestamp
  match spawnResult with
  | .error e => Except.error ("Failed to start gpu-screen-recorder: " ++ e)
  | .ok child => pure (child, output_file)

/-- `recorder::stop_recording`: send SIGINT to the child, then wait for it to
exit; the two OS interactions are oracles. -/
def stop_recording (killResult waitResult : Except String Unit) :
    Except String Unit := do
  match killResult with
  | .error e => Except.error ("Failed to send SIGINT: " ++ e)
  | .ok _ =>
      match waitResult with
      | .error e => Except.error ("Failed to wait for process: " ++ e)
      | .ok _ => pure ()

end Recorder

/-- DBus signals of the `org.matthew_hre.NiriScreenRecorder` interface. -/
inductive Sig where
  | recordingStarted
  | recordingStopped (file_path : String)
deriving DecidableEq, Repr

/-- Observable outbound actions of a session-controller operation, in the
order the code performs them. -/
inductive Effect where
  | spawnSelector
  | spawnCapture
  | emit (s : Sig)
  | notifyError (msg : String)
  | notifyStopped (file : String)
  | logStopError (msg : String)
deriving DecidableEq, Repr

/-- Effects that are local log lines only (no outbound signal, notification
or subprocess). -/
def Effect.isLog : Effect → Bool
  | .logStopError _ => true
  | _ => false

/-- The DBus signals contained in an effect trace, in order. -/
def signalsOf (effs : List Effect) : List Sig :=
  effs.filterMap fun e =>
    match e with
    | .emit s => some s
    | _ => none

/-- All external outcomes one `StartRecording` call can observe: the slurp
run, the environment, directory creation, the timestamp, and the capture
spawn result. -/
structure StartWorld where
  slurp : Recorder.SlurpRun
  env : Env
  mkdirOk : Bool
  timestamp : String
  spawnResult : Except String Nat
deriving Repr

namespace Dbus

/-- Whether the `start_recording` path reaches the `cmd.spawn()` call for the
capture tool: it does exactly when `generate_filename` succeeded. -/
def captureAttempt (w : StartWorld) : List Effect :=
  match Recorder.generate_filename w.env w.mkdirOk w.timestamp with
  | .ok _ => [.spawnCapture]
  | .error _ => []

/-- `ScreenRecorder::start_recording`: no-op returning `false` when already
recording; otherwise select a region (error notification and `false` on
failure), then spawn the capture tool (error notification and `false` on
failure), and on success set all three record fields, emit
`RecordingStarted` and return `true`. Result is (new state, return value,
effect trace). -/
def start_recording (w : StartWorld) (s : RecorderState) :
    RecorderState × Bool × List Effect :=
  if s.recording then
    (s, false, [])
  else
    match Recorder.select_region w.slurp with
    | .error e => (s, false, [.spawnSelector, .notifyError e])
    | .ok region =>
        match Recorder.start_recording w.env w.mkdirOk w.timestamp w.spawnResult region with
        | .ok (child, file) =>
            ({ recording := true, current_file := some file, child := some child },
             true,
             [.spawnSelector, .spawnCapture, .emit .recordingStarted])
        | .error e =>
            (s, false, .spawnSelector :: captureAttempt w ++ [.notifyError e])

/-- `ScreenRecorder::stop_recording`: no-op returning `false` when not
recording; otherwise capture the current file, attempt the graceful stop of
the child (its `Except` outcome is the oracle; an error is only logged),
reset all three fields unconditionally, emit `RecordingStopped(file)`, send
the "recording saved" notification, and return `true`. -/
def stop_recording (stopResult : Except String Unit) (s : RecorderState) :
    RecorderState × Bool × List Effect :=
  if !s.recording then
    (s, false, [])
  else
    let file := s.current_file.getD ""
    let stopEff : List Effect :=
      match s.child with
      | some _ =>
          match stopResult with
          | .error e => [.logStopError e]
          | .ok _ => []
      | none => []
    ({ recording := false, current_file := none, child := none },
     true,
     stopEff ++ [.emit (.recordingStopped file), .notifyStopped file])

/-- `ScreenRecorder::toggle_recording`: read the `recording` flag, release
the read lock, and delegate to stop or start. -/
def toggle_recording (w : StartWorld) (stopResult : Except String Unit)
    (s : RecorderState) : RecorderState × Bool × List Effect :=
  if s.recording then
    stop_recording stopResult s
  else
    start_recording w s

/-- `ScreenRecorder::is_recording`. -/
def is_recording (s : RecorderState) : Bool :=
  s.recording

/-- `ScreenRecorder::get_current_file`: the current file, or the empty
string when none. -/
def get_current_file (s : RecorderState) : String :=
  s.current_file.getD ""

end Dbus

/-- One remote call to the session controller, together with the external
outcomes it observes. -/
inductive Call where
  | start (w : StartWorld)
  | stop (stopResult : Except String Unit)
deriving Repr

/-- The state reached after one call. -/
def applyCall (s : RecorderState) : Call → RecorderState
  | .start w => (Dbus.start_recording w s).1
  | .stop r => (Dbus.stop_recording r s).1

/-- The state reached after a sequence of calls. -/
def runCalls (cs : List Call) (s : RecorderState) : RecorderState :=
  cs.foldl applyCall s

/-- The record invariant of the design: all three fields are set together. -/
def stateInv (s : RecorderState) : Prop :=
  (s.recording = true ↔ s.current_file.isSome = true) ∧
  (s.recording = true ↔ s.child.isSome = true)

instance (s : RecorderState) : Decidable (stateInv s) := by
  unfold stateInv; infer_instance

namespace Notifications

/-- Observable side effects of dispatching a notification action. -/
inductive ActionEffect where
  | copyToClipboard (text : String)
  | openFileAction (path : String)
  | warnUnknown (key : String)
deriving DecidableEq, Repr

/-- `notifications::handle_action`: dispatch by action key; `copy-path`
copies the path to the clipboard, `open-file` opens the file, anything else
logs a warning and does nothing. -/
def handle_action (action_key file_path : String) : List ActionEffect :=
  if action_key = "copy-path" then [.copyToClipboard file_path]
  else if action_key = "open-file" then [.openFileAction file_path]
  else [.warnUnknown action_key]

/-- Outcome of one bounded wait on the `ActionInvoked` stream: an event
arrived, the stream closed (`Ok(None)`), or the 6-second timeout elapsed. -/
inductive WaitOutcome where
  | event (id : Nat) (action_key : String)
  | closed
  | timedOut
deriving DecidableEq, Repr

/-- Why the listener loop ended. -/
inductive ListenerExit where
  | dispatched
  | streamClosed
  | waitTimeout
deriving DecidableEq, Repr

/-- `notifications::listen_for_action`'s loop over a trace of wait outcomes:
a non-matching event is ignored and the loop waits again (each wait with its
own fresh timeout); the first matching event is dispatched via
`handle_action` and ends the loop; stream closure or a timeout ends the loop
with no side effects. `none` means the supplied trace ran out before the
loop terminated. -/
def listen_for_action (notification_id : Nat) (file_path : String) :
    List WaitOutcome → List ActionEffect × Option ListenerExit
  | [] => ([], none)
  | .event id key :: rest =>
      if id = notification_id then
        (handle_action key file_path, some .dispatched)
      else
        listen_for_action notification_id file_path rest
  | .closed :: _ => ([], some .streamClosed)
  | .timedOut :: _ => ([], some .waitTimeout)

end Notifications

end NiriRec

namespace NiriRec

theorem stateInv_applyCall (s : RecorderState) (c : Call) (h : stateInv s) :
    stateInv (applyCall s c) := by
  cases c with
  | start w =>
      show stateInv (Dbus.start_recording w s).1
      unfold Dbus.start_recording
      split
      · exact h
      · split
        · simpa using h
        · split
          · simp [stateInv]
          · simpa using h
  | stop r =>
      show stateInv (Dbus.stop_recording r s).1
      unfold Dbus.stop_recording
      split
      · exact h
      · simp [stateInv]

/-- Claim C1: starting from the initial empty session record, after every
sequence of StartRecording/StopRecording calls the record satisfies
`recording = true ↔ current_file.isSome ↔ child.isSome`; no reachable state
has only one or two of the three fields set. -/
theorem start_stop_preserves_record_invariant (cs : List Call) :
    stateInv (runCalls cs RecorderState.default) := by
  suffices h : ∀ s, stateInv s → stateInv (runCalls cs s) by
    exact h _ (by decide)
  induction cs with
  | nil => intro s hs; exact hs
  | cons c rest ih =>
      intro s hs
      exact ih _ (stateInv_applyCall s c hs)

/-- Claim C3: StartRecording in a recording state returns `false`, leaves
the record unchanged and performs no outbound effect — in particular it
spawns neither the region selector nor the capture tool. -/
theorem start_while_recording_is_noop (w : StartWorld) (s : RecorderState)
    (h : s.recording = true) :
    Dbus.start_recording w s = (s, false, []) := by
  unfold Dbus.start_recording
  simp [h]

theorem start_while_recording_is_noop_witness :
    Dbus.start_recording
        ⟨.ran true "1x1+0+0" "", ⟨none, none, none, none, some "/v", none⟩,
         true, "TS", .ok 7⟩
        ⟨true, some "/v/f.mp4", some 3⟩ =
      (⟨true, some "/v/f.mp4", some 3⟩, false, []) :=
  start_while_recording_is_noop _ _ rfl

/-- Claim C4: StopRecording in an idle state returns `false`, leaves the
record unchanged and performs no outbound effect — no `RecordingStopped`
signal and no notification. -/
theorem stop_while_idle_is_noop (r : Except String Unit) (s : RecorderState)
    (h : s.recording = false) :
    Dbus.stop_recording r s = (s, false, []) := by
  unfold Dbus.stop_recording
  simp [h]

theorem stop_while_idle_is_noop_witness :
    Dbus.stop_recording (Except.ok ()) RecorderState.default =
      (RecorderState.default, false, []) :=
  stop_while_idle_is_noop _ _ rfl

/-- Claim C6: absent concurrent interference, ToggleRecording from a
recording state produces exactly the result, state change and effects of
StopRecording, and from an idle state exactly those of StartRecording. -/
theorem toggle_delegates_to_start_or_stop (w : StartWorld)
    (r : Except String Unit) (s : RecorderState) :
    (s.recording = true → Dbus.toggle_recording w r s = Dbus.stop_recording r s) ∧
    (s.recording = false → Dbus.toggle_recording w r s = Dbus.start_recording w s) := by
  constructor <;> intro h <;> simp [Dbus.toggle_recording, h]

theorem toggle_delegates_to_start_or_stop_witness :
    (Dbus.toggle_recording
        ⟨.ran true "1x1+0+0" "", ⟨none, none, none, none, some "/v", none⟩,
         true, "TS", .ok 7⟩
        (Except.ok ()) ⟨true, some "/v/f.mp4", some 3⟩ =
      Dbus.stop_recording (Except.ok ()) ⟨true, some "/v/f.mp4", some 3⟩) ∧
    (Dbus.toggle_recording
        ⟨.ran true "1x1+0+0" "", ⟨none, none, none, none, some "/v", none⟩,
         true, "TS", .ok 7⟩
        (Except.ok ()) RecorderState.default =
      Dbus.start_recording
        ⟨.ran true "1x1+0+0" "", ⟨none, none, none, none, some "/v", none⟩,
         true, "TS", .ok 7⟩
        RecorderState.default) :=
  ⟨(toggle_delegates_to_start_or_stop _ _ _).1 rfl,
   (toggle_delegates_to_start_or_stop _ _ _).2 rfl⟩

end NiriRec

namespace NiriRec

/-- Claim C2: from a recording state, StopRecording resets the record to the
idle state and returns `true` whether or not the graceful-termination step
succeeded; a failure only adds a log line, leaving every non-log effect the
same as on the success path. -/
theorem stop_resets_record_unconditionally (r : Except String Unit)
    (s : RecorderState) (h : s.recording = true) :
    (Dbus.stop_recording r s).1 = RecorderState.default ∧
    (Dbus.stop_recording r s).2.1 = true ∧
    ((Dbus.stop_recording r s).2.2.filter fun e => !e.isLog) =
      ((Dbus.stop_recording (Except.ok ()) s).2.2.filter fun e => !e.isLog) := by
  unfold Dbus.stop_recording
  split
  · next hc => rw [h] at hc; exact absurd hc (by decide)
  · refine ⟨rfl, rfl, ?_⟩
    cases s.child with
    | none => rfl
    | some c =>
        cases r with
        | ok u => rfl
        | error e => simp [Effect.isLog]

theorem stop_resets_record_unconditionally_witness :
    (Dbus.stop_recording (Except.error "boom") ⟨true, some "/v/f.mp4", some 3⟩).1 =
        RecorderState.default ∧
    (Dbus.stop_recording (Except.error "boom") ⟨true, some "/v/f.mp4", some 3⟩).2.1 = true ∧
    ((Dbus.stop_recording (Except.error "boom")
        ⟨true, some "/v/f.mp4", some 3⟩).2.2.filter fun e => !e.isLog) =
      ((Dbus.stop_recording (Except.ok ())
        ⟨true, some "/v/f.mp4", some 3⟩).2.2.filter fun e => !e.isLog) :=
  stop_resets_record_unconditionally (Except.error "boom") ⟨true, some "/v/f.mp4", some 3⟩ rfl

open Notifications in
/-- Claim C8: the action listener ignores an event with a non-matching id
and keeps waiting on the rest of its trace (each wait with a fresh bound);
the first event with the matching id is dispatched through `handle_action`
(an unknown key producing only a warning) and the listener terminates; a
closed stream or an elapsed wait timeout terminates it with no side
effects. -/
theorem listener_dispatch_and_termination (nid : Nat) (file : String)
    (trace : List WaitOutcome) (id : Nat) (key : String) :
    (id ≠ nid →
      listen_for_action nid file (.event id key :: trace) =
        listen_for_action nid file trace) ∧
    (listen_for_action nid file (.event nid key :: trace) =
      (handle_action key file, some .dispatched)) ∧
    (key ≠ "copy-path" → key ≠ "open-file" →
      handle_action key file = [.warnUnknown key]) ∧
    (listen_for_action nid file (.closed :: trace) = ([], some .streamClosed)) ∧
    (listen_for_action nid file (.timedOut :: trace) = ([], some .waitTimeout)) := by
  refine ⟨?_, ?_, ?_, rfl, rfl⟩
  · intro h
    simp [listen_for_action, h]
  · simp [listen_for_action]
  · intro h1 h2
    simp [handle_action, h1, h2]

open Notifications in
theorem listener_dispatch_and_termination_witness :
    (listen_for_action 5 "f" [.event 4 "copy-path", .timedOut] =
      listen_for_action 5 "f" [.timedOut]) ∧
    (listen_for_action 5 "f" (.event 5 "zzz" :: [.timedOut]) =
      (handle_action "zzz" "f", some .dispatched)) ∧
    (handle_action "zzz" "f" = [.warnUnknown "zzz"]) ∧
    (listen_for_action 5 "f" [.closed, .timedOut] = ([], some .streamClosed)) ∧
    (listen_for_action 5 "f" [.timedOut, .closed] = ([], some .waitTimeout)) := by
  have h := listener_dispatch_and_termination 5 "f" [.timedOut] 4 "zzz"
  have h2 := listener_dispatch_and_termination 5 "f" [.timedOut] 4 "zzz"
  exact ⟨h.1 (by decide),
         (listener_dispatch_and_termination 5 "f" [.timedOut] 4 "zzz").2.1,
         h2.2.2.1 (by decide) (by decide),
         h.2.2.2.1,
         h.2.2.2.2⟩

end NiriRec

namespace NiriRec

theorem recorder_start_ok_shape (env : Env) (mkdirOk : Bool) (ts : String)
    (spawnResult : Except String Nat) (region : String) (child : Nat) (file : String)
    (h : Recorder.start_recording env mkdirOk ts spawnResult region =
        Except.ok (child, file)) :
    Recorder.generate_filename env mkdirOk ts = Except.ok file ∧
    spawnResult = Except.ok child := by
  unfold Recorder.start_recording at h
  cases hgen : Recorder.generate_filename env mkdirOk ts with
  | error e => rw [hgen] at h; simp [Bind.bind, Except.bind, pure, Except.pure] at h
  | ok out =>
      rw [hgen] at h
      simp only [Bind.bind, Except.bind] at h
      cases spawnResult with
      | error e => simp at h
      | ok c =>
          simp only [pure, Except.pure, Except.ok.injEq, Prod.mk.injEq] at h
          obtain ⟨h1, h2⟩ := h
          exact ⟨by rw [h2], by rw [h1]⟩

theorem start_success_shape (w : StartWorld) (s : RecorderState)
    (h : (Dbus.start_recording w s).2.1 = true) :
    ∃ child file,
      Recorder.generate_filename w.env w.mkdirOk w.timestamp = Except.ok file ∧
      Dbus.start_recording w s =
        ({ recording := true, current_file := some file, child := some child },
         true,
         [.spawnSelector, .spawnCapture, .emit .recordingStarted]) := by
  unfold Dbus.start_recording at h ⊢
  split at h
  · simp at h
  · next hnr =>
      split at h
      · simp at h
      · next region hsel =>
          split at h
          · next child file hst =>
              refine ⟨child, file, (recorder_start_ok_shape _ _ _ _ _ _ _ hst).1, ?_⟩
              rw [if_neg hnr]
          · simp at h

end NiriRec

namespace NiriRec

/-- Claim C5: a successful StartRecording followed by StopRecording emits
exactly one `RecordingStarted` signal and then exactly one
`RecordingStopped(file)` signal, the file argument being exactly what
GetCurrentFile returned while the recording was in progress. -/
theorem start_stop_signal_trace (w : StartWorld) (r : Except String Unit)
    (s : RecorderState) (h : (Dbus.start_recording w s).2.1 = true) :
    signalsOf ((Dbus.start_recording w s).2.2 ++
        (Dbus.stop_recording r (Dbus.start_recording w s).1).2.2) =
      [Sig.recordingStarted,
       Sig.recordingStopped (Dbus.get_current_file (Dbus.start_recording w s).1)] := by
  obtain ⟨child, file, _hgen, hshape⟩ := start_success_shape w s h
  rw [hshape]
  unfold Dbus.stop_recording Dbus.get_current_file
  cases r <;> simp [signalsOf]

theorem start_stop_signal_trace_witness :
    signalsOf ((Dbus.start_recording
          ⟨.ran true "1x1+0+0" "", ⟨none, none, none, none, some "/v", none⟩,
           true, "TS", .ok 7⟩ RecorderState.default).2.2 ++
        (Dbus.stop_recording (Except.ok ())
          (Dbus.start_recording
            ⟨.ran true "1x1+0+0" "", ⟨none, none, none, none, some "/v", none⟩,
             true, "TS", .ok 7⟩ RecorderState.default).1).2.2) =
      [Sig.recordingStarted,
       Sig.recordingStopped (Dbus.get_current_file
         (Dbus.start_recording
           ⟨.ran true "1x1+0+0" "", ⟨none, none, none, none, some "/v", none⟩,
            true, "TS", .ok 7⟩ RecorderState.default).1)] :=
  start_stop_signal_trace _ (Except.ok ()) RecorderState.default (by decide)

/-- Claim C7: when the region selector fails (spawn failure, non-zero exit,
or an empty trimmed selection), StartRecording from an idle state returns
`false`, leaves the record unchanged, surfaces exactly one error
notification, and never spawns the capture tool. -/
theorem selector_failure_aborts_start (w : StartWorld) (s : RecorderState)
    (e : String) (hidle : s.recording = false)
    (hfail : Recorder.select_region w.slurp = Except.error e) :
    Dbus.start_recording w s = (s, false, [.spawnSelector, .notifyError e]) := by
  unfold Dbus.start_recording
  rw [hfail, if_neg (by rw [hidle]; exact Bool.false_ne_true)]

theorem selector_failure_aborts_start_witness :
    Dbus.start_recording
        ⟨.ran false "" "cancel", ⟨none, none, none, none, some "/v", none⟩,
         true, "TS", .ok 7⟩ RecorderState.default =
      (RecorderState.default, false,
       [.spawnSelector, .notifyError "Region selection cancelled: cancel"]) :=
  selector_failure_aborts_start _ _ _ rfl (by decide)

end NiriRec

namespace NiriRec

theorem strAppendAssoc : ∀ (a b c : String), a ++ b ++ c = a ++ (b ++ c)
  | ⟨la⟩, ⟨lb⟩, ⟨lc⟩ => congrArg String.mk (List.append_assoc la lb lc)

theorem pathJoin_append_suffix (d a suf : String) :
    ∃ p, pathJoin d (a ++ suf) = p ++ suf := by
  unfold pathJoin
  split
  · exact ⟨a, rfl⟩
  · split
    · exact ⟨d ++ a, (strAppendAssoc d a suf).symm⟩
    · exact ⟨d ++ "/" ++ a, (strAppendAssoc (d ++ "/") a suf).symm⟩

theorem ensure_dir_ok_shape (env : Env) (mk : Bool) (dir : String)
    (h : Recorder.ensure_screencasts_dir env mk = Except.ok dir) :
    mk = true ∧
    ((∃ d, env.outputDir = some d ∧ dir = d) ∨
     (env.outputDir = none ∧
      ∃ base, (env.videoDir.orElse fun _ => env.homeDir) = some base ∧
        dir = pathJoin base "Screencasts")) := by
  unfold Recorder.ensure_screencasts_dir at h
  cases ho : env.outputDir with
  | some d =>
      rw [ho] at h
      cases hmk : mk with
      | false => rw [hmk] at h; simp [Bind.bind, Except.bind, pure, Except.pure] at h
      | true =>
          rw [hmk] at h
          simp only [Bind.bind, Except.bind, pure, Except.pure, if_true, Except.ok.injEq] at h
          exact ⟨rfl, Or.inl ⟨d, rfl, h.symm⟩⟩
  | none =>
      rw [ho] at h
      cases hbase : env.videoDir.orElse fun _ => env.homeDir with
      | none => rw [hbase] at h; simp [Bind.bind, Except.bind, pure, Except.pure] at h
      | some base =>
          rw [hbase] at h
          cases hmk : mk with
          | false => rw [hmk] at h; simp [Bind.bind, Except.bind, pure, Except.pure] at h
          | true =>
              rw [hmk] at h
              simp only [Bind.bind, Except.bind, pure, Except.pure, if_true, Except.ok.injEq] at h
              exact ⟨rfl, Or.inr ⟨rfl, base, rfl, h.symm⟩⟩

theorem generate_filename_ok_shape (env : Env) (mk : Bool) (ts file : String)
    (h : Recorder.generate_filename env mk ts = Except.ok file) :
    ∃ dir, Recorder.ensure_screencasts_dir env mk = Except.ok dir ∧
      file = pathJoin dir ("screen-record-" ++ ts ++ "." ++ env.container.getD "mp4") := by
  unfold Recorder.generate_filename at h
  cases hens : Recorder.ensure_screencasts_dir env mk with
  | error e => rw [hens] at h; simp [Bind.bind, Except.bind, pure, Except.pure] at h
  | ok dir =>
      rw [hens] at h
      simp only [Bind.bind, Except.bind, pure, Except.pure, Except.ok.injEq] at h
      exact ⟨dir, rfl, h.symm⟩

end NiriRec

namespace NiriRec

/-- Claim C9: with all recognized environment keys unset, a successful
StartRecording makes GetCurrentFile return
`<base>/Screencasts/screen-record-<timestamp>.mp4` where `<base>` is the
platform video directory, or the home directory when the video directory is
unavailable — a path under the default base directory ending in `.mp4`. -/
theorem start_default_env_file_location (w : StartWorld) (s : RecorderState)
    (hdir : w.env.outputDir = none) (hcont : w.env.container = none)
    (hok : (Dbus.start_recording w s).2.1 = true) :
    ∃ base,
      (w.env.videoDir.orElse fun _ => w.env.homeDir) = some base ∧
      Dbus.get_current_file (Dbus.start_recording w s).1 =
        pathJoin (pathJoin base "Screencasts")
          ("screen-record-" ++ w.timestamp ++ ".mp4") ∧
      ∃ p, Dbus.get_current_file (Dbus.start_recording w s).1 = p ++ ".mp4" := by
  obtain ⟨child, file, hgen, hshape⟩ := start_success_shape w s hok
  obtain ⟨dir, hens, hfile⟩ := generate_filename_ok_shape _ _ _ _ hgen
  obtain ⟨-, hcases⟩ := ensure_dir_ok_shape _ _ _ hens
  rcases hcases with ⟨d2, hd2, -⟩ | ⟨-, base, hbase, hdirbase⟩
  · rw [hdir] at hd2; exact absurd hd2 (by simp)
  · have hcur : Dbus.get_current_file (Dbus.start_recording w s).1 = file := by
      rw [hshape]; rfl
    have harg : "screen-record-" ++ w.timestamp ++ "." ++ Option.getD w.env.container "mp4" =
        "screen-record-" ++ w.timestamp ++ ".mp4" := by
      rw [hcont]
      rw [strAppendAssoc ("screen-record-" ++ w.timestamp) "." (Option.getD none "mp4")]
      rfl
    refine ⟨base, hbase, ?_, ?_⟩
    · rw [hcur, hfile, hdirbase, harg]
    · rw [hcur, hfile, hdirbase, harg]
      exact pathJoin_append_suffix _ _ ".mp4"

theorem start_default_env_file_location_witness :
    ∃ base,
      ((⟨none, none, none, none, some "/v", none⟩ : Env).videoDir.orElse fun _ =>
          (⟨none, none, none, none, some "/v", none⟩ : Env).homeDir) = some base ∧
      Dbus.get_current_file (Dbus.start_recording
          ⟨.ran true "1920x1080+0+0" "", ⟨none, none, none, none, some "/v", none⟩,
           true, "TS", .ok 7⟩ RecorderState.default).1 =
        pathJoin (pathJoin base "Screencasts")
          ("screen-record-" ++ "TS" ++ ".mp4") ∧
      ∃ p, Dbus.get_current_file (Dbus.start_recording
          ⟨.ran true "1920x1080+0+0" "", ⟨none, none, none, none, some "/v", none⟩,
           true, "TS", .ok 7⟩ RecorderState.default).1 = p ++ ".mp4" :=
  start_default_env_file_location
    ⟨.ran true "1920x1080+0+0" "", ⟨none, none, none, none, some "/v", none⟩,
     true, "TS", .ok 7⟩ RecorderState.default rfl rfl (by decide)

/-- Claim C10: a successful `generate_filename` places the output file
directly inside the `NIRI_SCREEN_RECORDER_OUTPUT_DIR` override taken
verbatim when that key is set, and inside `<video dir or home dir>/Screencasts`
when it is unset; the filename is always
`screen-record-<timestamp>.<container>` with the container defaulting to
`mp4`. -/
theorem output_dir_override_and_filename (env : Env) (mk : Bool) (ts file : String)
    (hok : Recorder.generate_filename env mk ts = Except.ok file) :
    (∀ d, env.outputDir = some d →
        file = pathJoin d ("screen-record-" ++ ts ++ "." ++ env.container.getD "mp4")) ∧
    (env.outputDir = none →
        ∃ base, (env.videoDir.orElse fun _ => env.homeDir) = some base ∧
          file = pathJoin (pathJoin base "Screencasts")
              ("screen-record-" ++ ts ++ "." ++ env.container.getD "mp4")) := by
  obtain ⟨dir, hens, hfile⟩ := generate_filename_ok_shape env mk ts file hok
  obtain ⟨-, hcases⟩ := ensure_dir_ok_shape env mk dir hens
  constructor
  · intro d hd
    rcases hcases with ⟨d2, hd2, hdird⟩ | ⟨hnone, -⟩
    · rw [hd] at hd2
      injection hd2 with hdd
      rw [hfile, hdird, hdd]
    · rw [hd] at hnone
      exact absurd hnone (by simp)
  · intro hnone
    rcases hcases with ⟨d2, hd2, -⟩ | ⟨-, base, hbase, hdirbase⟩
    · rw [hnone] at hd2
      exact absurd hd2 (by simp)
    · exact ⟨base, hbase, by rw [hfile, hdirbase]⟩

theorem output_dir_override_and_filename_witness :
    ("/out/screen-record-TS.webm" : String) =
      pathJoin "/out" ("screen-record-" ++ "TS" ++ "." ++
        (Env.mk (some "/out") (some "webm") none none none none).container.getD "mp4") ∧
    ∃ base,
      ((Env.mk none none none none (some "/v") none).videoDir.orElse fun _ =>
          (Env.mk none none none none (some "/v") none).homeDir) = some base ∧
      ("/v/Screencasts/screen-record-TS.mp4" : String) =
        pathJoin (pathJoin base "Screencasts")
          ("screen-record-" ++ "TS" ++ "." ++
            (Env.mk none none none none (some "/v") none).container.getD "mp4") :=
  ⟨(output_dir_override_and_filename
      (Env.mk (some "/out") (some "webm") none none none none) true "TS"
      "/out/screen-record-TS.webm" (by decide)).1 "/out" rfl,
   (output_dir_override_and_filename
      (Env.mk none none none none (some "/v") none) true "TS"
      "/v/Screencasts/screen-record-TS.mp4" (by decide)).2 rfl⟩

end NiriRec
